import Mathlib

/-!
Verification of the ABxLab response-interception and content-substitution
pipeline (src/nudgelab/browser.py, src/nudgelab/task.py,
src/nudgelab/choices/shop/in_stock.py, src/abxlab/choices/shop/product.py)
against its natural-language specification.

The pipeline code is shallowly embedded: Python dictionaries become
structures, exceptions become `Except PyError`, the ambient wall clock and
`random.randint` draws become explicit parameters, and the filesystem
becomes an association list.  Every definition is translated from the
source file named in its doc comment.
-/

namespace ABXLab

/-- Python exceptions that the embedded code can raise. -/
inductive PyError where
  | nameError (n : String)
  | attributeError (n : String)
  | valueError (msg : String)
deriving DecidableEq, Repr

/-- An intervention spec `{module, name, args}` from a task configuration
(`f["module"]`, `f["name"]`, `f["args"]` in `process_html_content`,
src/nudgelab/browser.py lines 334-337).  `args` is the keyword-argument
dictionary, modelled as an association list of opaque string tokens. -/
structure FuncSpec where
  module : String
  name : String
  args : List (String × String)
deriving DecidableEq, Repr

/-- A Choice `{url, functions}` from a task configuration
(src/nudgelab/browser.py lines 323-334, spec section 3). -/
structure Choice where
  url : String
  functions : List FuncSpec
deriving DecidableEq, Repr

/-- One intervention metadata record: the dict returned by the intervention
function (`extra`), extended with the request url, a `time.time()` stamp and
the function descriptor (src/nudgelab/browser.py lines 342-350). -/
structure MetaRecord where
  url : String
  timestamp : Nat
  func : FuncSpec
  extra : List (String × String)
deriving DecidableEq, Repr

/-- The slice of a `NudgeLabTask` object that the route handler touches:
its `process_html` method and its `nudge_metadata` attribute.
`nudge_metadata := none` models the attribute not existing on the object:
`NudgeLabTask.__init__` (src/nudgelab/task.py lines 22-49) assigns
`viewport`, `slow_mo`, `timeout`, `webarena_instance`, `with_na_hint`,
`with_homepage_hint`, `config` and `study_dir`, but never `nudge_metadata`,
so reading that attribute raises `AttributeError`. -/
structure TaskState where
  process_html : String → Except PyError String
  nudge_metadata : Option (List MetaRecord)

/-- `NudgeLabTask` as constructed by `__init__`: `process_html` is the
base-class identity method (src/nudgelab/task.py lines 166-172) and
`nudge_metadata` is never assigned. -/
def initTask (p : String → Except PyError String) : TaskState :=
  ⟨p, none⟩

/-- The dynamic function table behind `importlib.import_module(module)` /
`getattr(module, name)`: given module path, function name, the `args`
dictionary and the current HTML, it returns rewritten HTML plus the
metadata dict returned by the intervention, or raises. -/
def FuncTable : Type :=
  String → String → List (String × String) → String →
    Except PyError (String × List (String × String))

/-- The choice-resolution expression of `process_html_content`
(src/nudgelab/browser.py lines 325-330):
`next(filter(lambda choice: choice["url"] in [request_url, "*"], choices), None)`.
A single pass returning the first entry whose url equals the request url or
is the wildcard. -/
def choice_lookup (choices : List Choice) (request_url : String) : Option Choice :=
  choices.find? (fun c => c.url == request_url || c.url == "*")

/-- Embedding of `process_html_content` (src/nudgelab/browser.py lines
314-354).  The result pairs the returned-or-raised HTML with the task's
`nudge_metadata` attribute as it stands when the call ends (exceptions do
not roll attribute mutations back).  After the task preprocessing and the
choice lookup, the source executes `for choice in choices:` — but no name
`choices` is bound in `process_html_content`, in `setup_route_handler`, or
at module scope of browser.py, so reaching that statement raises
`NameError`, and no intervention function is ever invoked. -/
def process_html_content (F : FuncTable) (env_choices : Option (List Choice))
    (task : TaskState) (html_content : String) (request_url : String) :
    Except PyError String × Option (List MetaRecord) :=
  match task.process_html html_content with
  | .error e => (.error e, task.nudge_metadata)
  | .ok html1 =>
    match env_choices with
    | none => (.ok html1, task.nudge_metadata)
    | some cfg =>
      let _matched := choice_lookup cfg request_url
      (Except.error (PyError.nameError "choices"), task.nudge_metadata)

/-- Modelled from the spec (section 4.5 ordering guarantee, and the body of
the `for` loop at src/nudgelab/browser.py lines 333-352, which the unbound
name `choices` prevents from running): the intended application of a
choice's function list as a left fold seeded with the incoming HTML, one
metadata record appended per applied intervention.  `clock k` is the
`time.time()` sample taken for the k-th record. -/
def apply_functions (F : FuncTable) (request_url : String) (clock : Nat → Nat)
    (fs : List FuncSpec) (html : String) (nudge : List MetaRecord) (k : Nat) :
    Except PyError String × List MetaRecord :=
  match fs with
  | [] => (.ok html, nudge)
  | f :: rest =>
    match F f.module f.name f.args html with
    | .error e => (.error e, nudge)
    | .ok (html2, extra) =>
      apply_functions F request_url clock rest html2
        (nudge ++ [⟨request_url, clock k, f, extra⟩]) (k + 1)

/-- UTF-8 encoding of one character (the standard 1-4 byte scheme). -/
def utf8CharBytes (c : Char) : List UInt8 :=
  let v := c.toNat
  if v < 128 then [UInt8.ofNat v]
  else if v < 2048 then
    [UInt8.ofNat (192 + v / 64), UInt8.ofNat (128 + v % 64)]
  else if v < 65536 then
    [UInt8.ofNat (224 + v / 4096), UInt8.ofNat (128 + v / 64 % 64),
     UInt8.ofNat (128 + v % 64)]
  else
    [UInt8.ofNat (240 + v / 262144), UInt8.ofNat (128 + v / 4096 % 64),
     UInt8.ofNat (128 + v / 64 % 64), UInt8.ofNat (128 + v % 64)]

/-- UTF-8 encoding of a string as a byte list. -/
def utf8Bytes (s : String) : List UInt8 :=
  s.data.flatMap utf8CharBytes

/-- Splitting a character list at spaces, as Python's `"a b".split(" ")`
(used for the whitespace-separated tokens of a class attribute). -/
def splitOnSpaceAux : List Char → List Char → List String
  | [], acc => [String.mk acc.reverse]
  | c :: rest, acc =>
    if c = ' ' then String.mk acc.reverse :: splitOnSpaceAux rest []
    else splitOnSpaceAux rest (c :: acc)

/-- The space-separated fields of a string. -/
def splitOnSpace (s : String) : List String :=
  splitOnSpaceAux s.data []

/-- Python's `str.strip()`: removes leading and trailing whitespace. -/
def pyStrip (s : String) : String :=
  String.mk
    (((s.data.dropWhile Char.isWhitespace).reverse.dropWhile
        Char.isWhitespace).reverse)

/-- `quote_plus` hex digit (uppercase, as in CPython's `urllib.parse`). -/
def hexDigit (n : Nat) : Char :=
  if n < 10 then Char.ofNat (48 + n) else Char.ofNat (55 + n)

/-- Bytes CPython's `urllib.parse.quote` never escapes: ASCII letters,
digits, and `_ . - ~`. -/
def alwaysSafeByte (b : UInt8) : Bool :=
  (65 ≤ b.toNat && b.toNat ≤ 90) || (97 ≤ b.toNat && b.toNat ≤ 122) ||
  (48 ≤ b.toNat && b.toNat ≤ 57) ||
  (b.toNat == 95 || b.toNat == 46 || b.toNat == 45 || b.toNat == 126)

/-- Percent-encoding of a single byte under `quote_plus` with the default
empty safe set: safe bytes pass through, space becomes `+`, everything else
becomes `%XX` with uppercase hex. -/
def quoteByte (b : UInt8) : String :=
  if alwaysSafeByte b then String.singleton (Char.ofNat b.toNat)
  else if b.toNat == 32 then "+"
  else "%" ++ String.singleton (hexDigit (b.toNat / 16)) ++
       String.singleton (hexDigit (b.toNat % 16))

/-- `urllib.parse.quote_plus(url)` over the UTF-8 encoding of the string. -/
def quote_plus (s : String) : String :=
  String.join ((utf8Bytes s).map quoteByte)

/-- `NudgeLabBrowserEnv.sanitize_url` (src/nudgelab/browser.py lines 71-73):
`return quote_plus(url)`. -/
def sanitize_url (url : String) : String :=
  quote_plus url

/-- `sanitize_url` of the pre-caching script
(src/scripts/precache_pages.py lines 33-35): `return quote_plus(url)`. -/
def precache_sanitize_url (url : String) : String :=
  quote_plus url

/-- The cache file path `self.cache_dir / f"{sanitized}.html"` with
`cache_dir = Path(".cache")` (src/nudgelab/browser.py lines 66, 97). -/
def expected_cache_file (url : String) : String :=
  ".cache/" ++ sanitize_url url ++ ".html"

/-- The synthetic diagnostic document built on a cache miss
(src/nudgelab/browser.py lines 409-419). -/
def error_html (request_url expected_file : String) : String :=
  "\n            <html>\n                <head><title>Cache Miss Error</title></head>\n                <body>\n                    <h1>Cache Miss Error</h1>\n                    <p>URL: " ++ request_url ++ "</p>\n                    <p>Expected cache file: " ++ expected_file ++ "</p>\n                    <p>This should not happen if pre-caching worked correctly.</p>\n                </body>\n            </html>\n            "

/-- The route outcome: `route.continue_()` or
`route.fulfill(status=..., body=...)`. -/
inductive RouteAction where
  | cont
  | fulfill (status : Nat) (body : String)
deriving DecidableEq, Repr

/-- Logging landmarks of `modify_html`, used to show which stages ran. -/
inductive Event where
  | servedFromCache
  | warnProcessingFailed
  | cacheMissError
deriving DecidableEq, Repr

/-- The fields of a Playwright request that `modify_html` reads. -/
structure Request where
  url : String
  resource_type : String
deriving DecidableEq, Repr

/-- Embedding of the route handler `modify_html`
(src/nudgelab/browser.py lines 357-424).  Non-document requests are
continued unmodified; cached document requests are processed under a
catch-all `except` that falls back to the raw cached content; a cache miss
is fulfilled with status 500 and the synthetic error document.  The second
component is the task object after the call (its `nudge_metadata` may have
been mutated by `process_html_content`); the third lists the log events
emitted. -/
def modify_html (F : FuncTable) (env_choices : Option (List Choice))
    (task? : Option TaskState) (cache : String → Option String)
    (req : Request) : RouteAction × Option TaskState × List Event :=
  if req.resource_type = "document" then
    match cache req.url with
    | some cached =>
      match task? with
      | some task =>
        match process_html_content F env_choices task cached req.url with
        | (.ok processed, nudge2) =>
          (.fulfill 200 processed, some ⟨task.process_html, nudge2⟩,
            [Event.servedFromCache])
        | (.error _, nudge2) =>
          (.fulfill 200 cached, some ⟨task.process_html, nudge2⟩,
            [Event.servedFromCache, Event.warnProcessingFailed])
      | none => (.fulfill 200 cached, none, [Event.servedFromCache])
    | none =>
      (.fulfill 500 (error_html req.url (expected_cache_file req.url)),
        task?, [Event.cacheMissError])
  else
    (RouteAction.cont, task?, [])

/-- `NudgeLabTask.teardown` (src/nudgelab/task.py lines 103-114): opens
`study_dir/nudge_metadata.yaml` and dumps `self.nudge_metadata`.  Reading
`self.nudge_metadata` raises `AttributeError` when the attribute was never
assigned; otherwise the result names the file written and the list dumped
into it. -/
def teardown (study_dir : String) (task : TaskState) :
    Except PyError (String × List MetaRecord) :=
  match task.nudge_metadata with
  | none => .error (.attributeError "nudge_metadata")
  | some l => .ok (study_dir ++ "/nudge_metadata.yaml", l)

/-! DOM model.  `BeautifulSoup(html, "lxml")` parsing is abstracted away:
the intervention functions and the page classifier are embedded directly
over the parsed tree.  A node is a text fragment (`NavigableString`) or an
element with tag, attribute list and contents; the whole soup is the
`[document]` root element whose children are the document's top-level
nodes.  `str(soup)` is modelled by the deterministic serializer
`render`. -/
inductive Node where
  | text (s : String)
  | elem (tag : String) (attrs : List (String × String)) (children : List Node)
deriving Repr

/-- First value of an attribute, as BeautifulSoup's `tag[key]` lookup. -/
def getAttr (n : Node) (key : String) : Option String :=
  match n with
  | .text _ => none
  | .elem _ attrs _ => (attrs.find? (fun kv => kv.1 == key)).map (fun kv => kv.2)

/-- The whitespace-separated tokens of a node's `class` attribute. -/
def classTokens (n : Node) : List String :=
  match getAttr n "class" with
  | none => []
  | some s => splitOnSpace s

/-- BeautifulSoup's `class_=c` filter on a multi-valued class attribute:
matches when `c` is one of the class tokens, or when `c` equals the full
attribute string (this is how `find(class_="stock available")` matches
`class="stock available"`). -/
def bs4ClassMatch (c : String) (n : Node) : Bool :=
  (classTokens n).contains c || getAttr n "class" == some c

/-- A CSS class selector `.c` matches when `c` is one of the class
tokens. -/
def cssClassMatch (c : String) (n : Node) : Bool :=
  (classTokens n).contains c

/-- Whether the node is an element with the given tag name. -/
def isTag (n : Node) (t : String) : Bool :=
  match n with
  | .text _ => false
  | .elem tag _ _ => tag == t

mutual
/-- `element.find(...)`: the first strict descendant, in document
(pre-)order, satisfying the filter, as in BeautifulSoup (the receiver
itself is not a candidate). -/
def findFirst (p : Node → Bool) : Node → Option Node
  | .text _ => none
  | .elem _ _ cs => findFirstList p cs
termination_by structural n => n
/-- Document-order search over a list of sibling subtrees. -/
def findFirstList (p : Node → Bool) : List Node → Option Node
  | [] => none
  | n :: rest =>
    if p n then some n
    else
      match findFirst p n with
      | some r => some r
      | none => findFirstList p rest
termination_by structural l => l
end

mutual
/-- Rewrite the first strict descendant (document order) satisfying `p` by
`f`; the tree is unchanged when no descendant matches.  This models an
in-place mutation of the node BeautifulSoup's `find` returned. -/
def updateFirst (p : Node → Bool) (f : Node → Node) : Node → Node
  | .text s => .text s
  | .elem t a cs => .elem t a (updateFirstList p f cs)
termination_by structural n => n
/-- List version of `updateFirst`, rewriting at most one node. -/
def updateFirstList (p : Node → Bool) (f : Node → Node) : List Node → List Node
  | [] => []
  | n :: rest =>
    if p n then f n :: rest
    else
      if (findFirst p n).isSome then updateFirst p f n :: rest
      else n :: updateFirstList p f rest
termination_by structural l => l
end

mutual
/-- `found.insert_after(new)` composed with the search that found the
node: insert `new` right after the first strict descendant (document
order) satisfying `p`; unchanged when no descendant matches. -/
def insertAfterFirst (p : Node → Bool) (new : Node) : Node → Node
  | .text s => .text s
  | .elem t a cs => .elem t a (insertAfterFirstList p new cs)
termination_by structural n => n
/-- List version of `insertAfterFirst`. -/
def insertAfterFirstList (p : Node → Bool) (new : Node) : List Node → List Node
  | [] => []
  | n :: rest =>
    if p n then n :: new :: rest
    else
      if (findFirst p n).isSome then insertAfterFirst p new n :: rest
      else n :: insertAfterFirstList p new rest
termination_by structural l => l
end

mutual
/-- `found.insert_before(new)` composed with the search that found the
node: insert `new` right before the first strict descendant (document
order) satisfying `p`; unchanged when no descendant matches. -/
def insertBeforeFirst (p : Node → Bool) (new : Node) : Node → Node
  | .text s => .text s
  | .elem t a cs => .elem t a (insertBeforeFirstList p new cs)
termination_by structural n => n
/-- List version of `insertBeforeFirst`. -/
def insertBeforeFirstList (p : Node → Bool) (new : Node) : List Node → List Node
  | [] => []
  | n :: rest =>
    if p n then new :: n :: rest
    else
      if (findFirst p n).isSome then insertBeforeFirst p new n :: rest
      else n :: insertBeforeFirstList p new rest
termination_by structural l => l
end

/-- BeautifulSoup's `tag.string` property: the string of a text node; of an
element, the string of its unique child if any, else `None`. -/
def nodeString : Node → Option String
  | .text s => some s
  | .elem _ _ [c] => nodeString c
  | .elem _ _ _ => none

/-- Assignment to `tag.string`: replaces the node's entire contents with
the single string. -/
def setString (n : Node) (s : String) : Node :=
  match n with
  | .text _ => .text s
  | .elem t a _ => .elem t a [.text s]

/-- `tag.append(child)`: adds the child at the end of the contents. -/
def appendChild (n : Node) (child : Node) : Node :=
  match n with
  | .text s => .text s
  | .elem t a cs => .elem t a (cs ++ [child])

/-- `change_stock` (src/nudgelab/choices/shop/in_stock.py lines 26-43).
When `num_left` is omitted (None), the source draws
`num_left = random.randint(1, 100)`; that ambient draw is the explicit
parameter `randDraw` here.  The first `product-info-stock-sku` element is
located; inside it, the first `stock available` element either has its
string replaced by `"SOLD OUT"` (when the count is 0) or gets a
`div.stock-info` child appended. -/
def change_stock (randDraw : Int) (soup : Node) (num_left : Option Int) : Node :=
  let n : Int :=
    match num_left with
    | some v => v
    | none => randDraw
  let rewriteStock : Node → Node := fun sd =>
    if n = 0 then setString sd "SOLD OUT"
    else
      appendChild sd
        (.elem "div" [("class", "stock-info")]
          [.text ("only " ++ toString n ++ " left")])
  updateFirst (bs4ClassMatch "product-info-stock-sku")
    (fun pid => updateFirst (bs4ClassMatch "stock available") rewriteStock pid)
    soup

/-- `display_num_in_cart` (src/nudgelab/choices/shop/in_stock.py lines
46-70).  When `num_in_cart` is omitted (None), the source draws
`random.randint(0, max(0, num_left))`; that ambient draw is the explicit
parameter `randDraw`.  When `num_left > 0` and a `product-add-form`
element exists, a red `div.cart-info` banner is inserted before it. -/
def display_num_in_cart (randDraw : Int) (soup : Node) (num_left : Int)
    (num_in_cart : Option Int) : Node :=
  if 0 < num_left then
    let nic : Int :=
      match num_in_cart with
      | some v => v
      | none => randDraw
    insertBeforeFirst (bs4ClassMatch "product-add-form")
      (.elem "div"
        [("class", "cart-info"),
         ("style", "font-size: 18px; color: red; margin-top: 15px;")]
        [.text (" " ++ toString nic ++ " shoppers have this item in their cart")])
      soup
  else soup

/-- The `span.product-stock-details` tag built by `stock`
(src/abxlab/choices/shop/product.py lines 70-80). -/
def stockSpan (value : String) : Node :=
  .elem "span"
    [("class", "product-stock-details"),
     ("style",
      "display: inline-block; padding: 4px 8px; margin-top: 10px; border: 1px solid rgb(30, 109, 182); border-radius: 2px; color: rgb(30, 109, 182); font-size: 0.9em;")]
    [.text value]

/-- `stock` (src/abxlab/choices/shop/product.py lines 59-85):
`element = soup.find("div", class_=elem_id)` followed unconditionally by
`element.insert_after(span_tag)`.  When no such div exists, `element` is
`None` and the attribute access raises `AttributeError`; otherwise the new
span is inserted after the found element and `(str(soup), {})` is
returned. -/
def stock (soup : Node) (value : String) (elem_id : String) :
    Except PyError (Node × List (String × String)) :=
  match findFirst (fun n => isTag n "div" && bs4ClassMatch elem_id n) soup with
  | none => .error (.attributeError "insert_after")
  | some _ =>
    .ok (insertAfterFirst (fun n => isTag n "div" && bs4ClassMatch elem_id n)
          (stockSpan value) soup, [])

/-- The page types spec section 3 derives from the classifier branches. -/
inductive PageType where
  | product
  | category
  | home
  | other
deriving DecidableEq, Repr

/-- The product marker of `NudgeLabShopTask.process_html`
(src/nudgelab/task.py line 184):
`soup.find("meta", property="og:type", content="product")` is truthy. -/
def productMarker (soup : Node) : Bool :=
  (findFirst
    (fun n => isTag n "meta" && getAttr n "property" == some "og:type" &&
      getAttr n "content" == some "product") soup).isSome

/-- The category marker (src/nudgelab/task.py line 188):
`soup.select_one("div.sidebar-main div.filter")` is truthy — a `div` with
class token `filter` somewhere below a `div` with class token
`sidebar-main`. -/
def categoryMarker (soup : Node) : Bool :=
  (findFirst
    (fun n => isTag n "div" && cssClassMatch "sidebar-main" n &&
      (findFirst (fun m => isTag m "div" && cssClassMatch "filter" m) n).isSome)
    soup).isSome

/-- `soup.title`: the first `title` element of the document. -/
def soupTitle (soup : Node) : Option Node :=
  findFirst (fun n => isTag n "title") soup

/-- Truthiness of a BeautifulSoup tag: `Tag.__bool__` falls back to
`__len__`, the number of contents, so an empty element is falsy. -/
def nodeTruthy (n : Node) : Bool :=
  match n with
  | .text s => !(s == "")
  | .elem _ _ cs => !cs.isEmpty

/-- The home marker (src/nudgelab/task.py line 192):
`soup.title and soup.title.string.strip() == "One Stop Market"`, restricted
to the case where `soup.title.string` exists. -/
def homeMarker (soup : Node) : Bool :=
  match soupTitle soup with
  | none => false
  | some t =>
    nodeTruthy t &&
    (match nodeString t with
     | some s => pyStrip s == "One Stop Market"
     | none => false)

/-- The page type determined by the branch that
`NudgeLabShopTask.process_html` takes, in the source's order: product
marker, then category marker, then home marker, else OTHER. -/
def classify (soup : Node) : PageType :=
  if productMarker soup then .product
  else if categoryMarker soup then .category
  else if homeMarker soup then .home
  else .other

/-- Embedding of `NudgeLabShopTask.process_html`
(src/nudgelab/task.py lines 180-196), parametric in the three default
rewrites `product_rating`, `category_rating` and `home_rating` it imports
(their bodies do not affect which branch runs).  The only fallible step is
`soup.title.string.strip()` when the title is truthy but has no unique
string. -/
def shop_process_html (productR categoryR homeR : Node → Node) (soup : Node) :
    Except PyError Node :=
  if productMarker soup then .ok (productR soup)
  else if categoryMarker soup then .ok (categoryR soup)
  else
    match soupTitle soup with
    | none => .ok soup
    | some t =>
      if nodeTruthy t then
        match nodeString t with
        | none => .error (.attributeError "strip")
        | some s =>
          if pyStrip s == "One Stop Market" then .ok (homeR soup)
          else .ok soup
      else .ok soup

mutual
/-- Deterministic serializer standing in for `str(soup)`. -/
def render : Node → String
  | .text s => s
  | .elem t a cs =>
    "<" ++ t ++ String.join (a.map (fun kv => " " ++ kv.1 ++ "=\x22" ++ kv.2 ++ "\x22")) ++
      ">" ++ renderList cs ++ "</" ++ t ++ ">"
termination_by structural n => n
/-- Serialize a list of sibling nodes. -/
def renderList : List Node → String
  | [] => ""
  | n :: rest => render n ++ renderList rest
termination_by structural l => l
end

/-! Filesystem model for the content cache: an association list from file
path to the text most recently written there (newest entry first). -/
def Fs : Type := List (String × String)

/-- Writing a file (overwriting any previous content at that path). -/
def fsWrite (fs : Fs) (path content : String) : Fs :=
  (path, content) :: fs

/-- The current content at a path, if the file exists. -/
def fsRead (fs : Fs) (path : String) : Option String :=
  (fs.find? (fun kv => kv.1 == path)).map (fun kv => kv.2)

/-- CPython's universal-newline translation performed by text-mode reads
with the default `newline=None`: `"\r\n"` and a lone `"\r"` both become
`"\n"`. -/
def universal_newlines : List Char → List Char
  | [] => []
  | [c] => if c = '\r' then ['\n'] else [c]
  | c :: d :: rest =>
    if c = '\r' then
      if d = '\n' then '\n' :: universal_newlines rest
      else '\n' :: universal_newlines (d :: rest)
    else c :: universal_newlines (d :: rest)

/-- `NudgeLabBrowserEnv.cache_content` (src/nudgelab/browser.py lines
106-115): writes `content` to `.cache/<sanitize_url(url)>.html`.  The file
is opened in text mode with `newline=None`; on write this maps `"\n"` to
`os.linesep`, which is `"\n"` on the POSIX hosts the harness runs on, so
the stored text is `content` itself. -/
def cache_content (fs : Fs) (url content : String) : Fs :=
  fsWrite fs (expected_cache_file url) content

/-- `NudgeLabBrowserEnv.get_cached_content` (src/nudgelab/browser.py lines
94-104): reads `.cache/<sanitize_url(url)>.html` if it exists.  The
text-mode read applies universal-newline translation to the stored
text. -/
def get_cached_content (fs : Fs) (url : String) : Option String :=
  (fsRead fs (expected_cache_file url)).map
    (fun raw => String.mk (universal_newlines raw.data))

/-- Whether every truthy `title` element of the soup has a `.string`:
this rules out the one fallible path of `NudgeLabShopTask.process_html`
(`soup.title.string.strip()` on a multi-child title raises
`AttributeError`). -/
def titleStringOk (soup : Node) : Bool :=
  match soupTitle soup with
  | none => true
  | some t => !nodeTruthy t || (nodeString t).isSome

/-- A product page whose stock box contains an availability div: input for
exercising `change_stock` with the `num_left` argument omitted. -/
def c3Soup : Node :=
  .elem "[document]" []
    [.elem "html" []
      [.elem "body" []
        [.elem "div" [("class", "product-info-stock-sku")]
          [.elem "div" [("class", "stock available")] [.text "In stock"]]]]]

/-- A page carrying all three classifier markers at once: a product meta
tag, a category sidebar filter, and the One Stop Market title. -/
def c7Soup : Node :=
  .elem "[document]" []
    [.elem "html" []
      [.elem "head" []
        [.elem "meta" [("property", "og:type"), ("content", "product")] [],
         .elem "title" [] [.text "One Stop Market"]],
       .elem "body" []
        [.elem "div" [("class", "sidebar-main")]
          [.elem "div" [("class", "filter")] [.text "f"]]]]]

/-- A page with no element of class `product-info-stock-sku`: input for
the missing-target-element scenario of the `stock` intervention. -/
def c8Soup : Node :=
  .elem "[document]" []
    [.elem "html" []
      [.elem "body" [] [.text "no stock info"]]]

/-- The choices config of the missing-element scenario: one choice for
url "A" invoking the `stock` intervention of
`abxlab.choices.shop.product`. -/
def c8Cfg (value elem_id : String) : List Choice :=
  [⟨"A", [⟨"abxlab.choices.shop.product", "stock",
      [("value", value), ("elem_id", elem_id)]⟩]⟩]

/-! Concrete scenario used to evaluate the intervention loop: a config
with a single choice for url "A" carrying two functions, and a function
table under which each appends a distinct tag to the HTML. -/

/-- Function table for the C1 scenario. -/
def c1F : FuncTable := fun _m n _a h =>
  if n == "f1" then .ok (h ++ "[f1]", [])
  else if n == "f2" then .ok (h ++ "[f2]", [])
  else .error (.valueError "unknown function")

/-- First intervention spec of the C1 scenario. -/
def c1Spec1 : FuncSpec := ⟨"nudgelab.choices.shop.product", "f1", []⟩

/-- Second intervention spec of the C1 scenario. -/
def c1Spec2 : FuncSpec := ⟨"nudgelab.choices.shop.product", "f2", []⟩

/-- The choices list of the C1 scenario. -/
def c1Choices : List Choice := [⟨"A", [c1Spec1, c1Spec2]⟩]

/-- Task of the C1 scenario: base `NudgeLabTask` with the identity
`process_html` and no `nudge_metadata` attribute. -/
def c1Task : TaskState := initTask (fun h => .ok h)

/-- Cache of the C1 scenario: url "A" is cached. -/
def c1Cache : String → Option String := fun u =>
  if u == "A" then some "<page>" else none

/-- C1: the claim says the pipeline applies the matched Choice's functions
in list order as a left fold, so for functions `[f1, f2]` the output is
`f2(f1(html))`.  The code cannot do this: `process_html_content` computes
the matched choice but then executes `for choice in choices:` over the
unbound name `choices`, raising `NameError`, so the route's exception
handler serves the raw cached page.  At the concrete scenario the embedded
code errors and the fulfilled body is the unprocessed `"<page>"`, while
the loop body run as intended (`apply_functions`) would have produced
`"<page>[f1][f2]"`. -/
theorem c1_choices_loop_raises_nameerror :
    process_html_content c1F (some c1Choices) c1Task "<page>" "A"
      = (Except.error (PyError.nameError "choices"), none)
  ∧ (modify_html c1F (some c1Choices) (some c1Task) c1Cache ⟨"A", "document"⟩).1
      = RouteAction.fulfill 200 "<page>"
  ∧ apply_functions c1F "A" (fun _ => 7) [c1Spec1, c1Spec2] "<page>" [] 0
      = (Except.ok "<page>[f1][f2]",
         [⟨"A", 7, c1Spec1, []⟩, ⟨"A", 7, c1Spec2, []⟩])
  ∧ ("<page>" : String) ≠ "<page>[f1][f2]" := by
  refine ⟨rfl, rfl, rfl, by decide⟩

/-- The wildcard entry of the C2 counterexample, declared first. -/
def c2Wild : Choice := ⟨"*", []⟩

/-- The exact-match entry of the C2 counterexample, declared second. -/
def c2Exact : Choice := ⟨"A", [⟨"m", "f", []⟩]⟩

/-- C2 counterexample: the claim says a `"*"` wildcard entry matches only
if no exact match exists.  With choices `[{url:"*"}, {url:"A"}]` and a
request to "A", an exact match exists (the second entry), yet the resolver
`next(filter(lambda c: c["url"] in [request_url, "*"], choices), None)`
returns the wildcard declared first. -/
theorem c2_wildcard_shadows_exact_counterexample :
    choice_lookup [c2Wild, c2Exact] "A" = some c2Wild
  ∧ choice_lookup [c2Wild, c2Exact] "A" ≠ some c2Exact
  ∧ c2Exact.url = "A" ∧ c2Wild.url = "*" := by
  refine ⟨rfl, by decide, rfl, rfl⟩

/-- C2 amended: the resolver makes a single pass in declaration order and
selects the first entry whose url equals the request URL or is `"*"` —
exact matches take no precedence over earlier wildcard entries.  In
particular `[{url:A}, {url:"*"}]` on a request to A resolves to the first
entry, and when no entry's url is the request URL or `"*"` the result is
None. -/
theorem c2_first_match_resolution (pre suf : List Choice) (c : Choice)
    (url : String)
    (hpre : ∀ c2 ∈ pre, c2.url ≠ url ∧ c2.url ≠ "*")
    (hc : c.url = url ∨ c.url = "*") :
    choice_lookup (pre ++ c :: suf) url = some c
  ∧ (∀ cs : List Choice, (∀ c2 ∈ cs, c2.url ≠ url ∧ c2.url ≠ "*") →
      choice_lookup cs url = none)
  ∧ (∀ fs gs, choice_lookup [⟨url, fs⟩, ⟨"*", gs⟩] url = some ⟨url, fs⟩) := by
  refine ⟨?_, ?_, ?_⟩
  · induction pre with
    | nil =>
      have hp : (c.url == url || c.url == "*") = true := by
        rcases hc with h | h <;> simp [h]
      simp [choice_lookup, List.find?, hp]
    | cons d rest ih =>
      have hd := hpre d (List.mem_cons_self d rest)
      have hdp : (d.url == url || d.url == "*") = false := by
        simp [hd.1, hd.2]
      have ih2 := ih (fun c2 hmem => hpre c2 (List.mem_cons_of_mem d hmem))
      simpa [choice_lookup, List.find?, hdp] using ih2
  · intro cs hcs
    induction cs with
    | nil => rfl
    | cons d rest ih =>
      have hd := hcs d (List.mem_cons_self d rest)
      have hdp : (d.url == url || d.url == "*") = false := by
        simp [hd.1, hd.2]
      have ih2 := ih (fun c2 hmem => hcs c2 (List.mem_cons_of_mem d hmem))
      simpa [choice_lookup, List.find?, hdp] using ih2
  · intro fs gs
    simp [choice_lookup, List.find?]

/-- Witness for `c2_first_match_resolution` at a concrete input: one
non-matching entry before the exact entry for "A". -/
theorem c2_first_match_resolution_witness :
    ((∀ c2 ∈ [Choice.mk "B" []], c2.url ≠ "A" ∧ c2.url ≠ "*")
      ∧ ((Choice.mk "A" []).url = "A" ∨ (Choice.mk "A" []).url = "*"))
  ∧ (choice_lookup ([Choice.mk "B" []] ++ Choice.mk "A" [] :: []) "A"
      = some (Choice.mk "A" [])
    ∧ (∀ cs : List Choice, (∀ c2 ∈ cs, c2.url ≠ "A" ∧ c2.url ≠ "*") →
        choice_lookup cs "A" = none)
    ∧ (∀ fs gs, choice_lookup [⟨"A", fs⟩, ⟨"*", gs⟩] "A" = some ⟨"A", fs⟩)) :=
  ⟨⟨by decide, by decide⟩,
   c2_first_match_resolution [Choice.mk "B" []] [] (Choice.mk "A" []) "A"
     (by decide) (by decide)⟩

/-- Task of the C4 scenario: base `NudgeLabTask` whose `__init__` never
assigns `nudge_metadata`. -/
def c4Task : TaskState := initTask (fun h => .ok h)

/-- Choices of the C4 scenario: one matching choice with one function. -/
def c4Choices : List Choice :=
  [⟨"B", [⟨"nudgelab.choices.shop.in_stock", "change_stock",
      [("num_left", "3")]⟩]⟩]

/-- Function table of the C4 scenario. -/
def c4F : FuncTable := fun _ _ _ h => .ok (h ++ "[stock]", [])

/-- Cache of the C4 scenario: url "B" is cached. -/
def c4Cache : String → Option String := fun u =>
  if u == "B" then some "<p>" else none

/-- C4: the claim says each applied intervention appends exactly one
metadata record to `nudge_metadata` and teardown writes the accumulated
list to `nudge_metadata.yaml` exactly once.  In the code, an episode with
a matching choice raises `NameError` on the unbound `choices` before any
intervention runs or any record is appended — after serving the request
`nudge_metadata` is still the never-assigned attribute — and
`NudgeLabTask.teardown` then raises `AttributeError` when it reads
`self.nudge_metadata`, so nothing is ever written. -/
theorem c4_metadata_never_recorded_and_teardown_raises :
    ((modify_html c4F (some c4Choices) (some c4Task) c4Cache
        ⟨"B", "document"⟩).2.1.map TaskState.nudge_metadata) = some none
  ∧ (modify_html c4F (some c4Choices) (some c4Task) c4Cache
       ⟨"B", "document"⟩).1 = RouteAction.fulfill 200 "<p>"
  ∧ teardown "study" c4Task
      = Except.error (PyError.attributeError "nudge_metadata") := by
  refine ⟨rfl, rfl, rfl⟩

/-- C5: an intercepted document request whose URL is not in the content
cache is never continued to the network; `modify_html` fulfills it with
the synthetic diagnostic error document under status 500 (a non-2xx
status), after emitting the cache-miss error log. -/
theorem c5_cache_miss_synthetic_error (F : FuncTable)
    (cfg : Option (List Choice)) (task? : Option TaskState)
    (cache : String → Option String) (req : Request)
    (hdoc : req.resource_type = "document") (hmiss : cache req.url = none) :
    modify_html F cfg task? cache req
      = (RouteAction.fulfill 500
          (error_html req.url (expected_cache_file req.url)),
         task?, [Event.cacheMissError])
  ∧ (modify_html F cfg task? cache req).1 ≠ RouteAction.cont
  ∧ ¬(200 ≤ 500 ∧ 500 < 300) := by
  have hmain : modify_html F cfg task? cache req
      = (RouteAction.fulfill 500
          (error_html req.url (expected_cache_file req.url)),
         task?, [Event.cacheMissError]) := by
    simp [modify_html, hdoc, hmiss]
  refine ⟨hmain, ?_, by omega⟩
  rw [hmain]
  simp

/-- Witness for `c5_cache_miss_synthetic_error`: an empty cache and a
document request to a concrete URL. -/
theorem c5_cache_miss_synthetic_error_witness :
    ((Request.mk "http://shop/p1" "document").resource_type = "document"
      ∧ (fun _ : String => (none : Option String))
          (Request.mk "http://shop/p1" "document").url = none)
  ∧ (modify_html (fun _ _ _ h => .ok (h, [])) none none (fun _ => none)
        (Request.mk "http://shop/p1" "document")
      = (RouteAction.fulfill 500
          (error_html "http://shop/p1" (expected_cache_file "http://shop/p1")),
         none, [Event.cacheMissError])
    ∧ (modify_html (fun _ _ _ h => .ok (h, [])) none none (fun _ => none)
        (Request.mk "http://shop/p1" "document")).1 ≠ RouteAction.cont
    ∧ ¬(200 ≤ 500 ∧ 500 < 300)) :=
  ⟨⟨rfl, rfl⟩,
   c5_cache_miss_synthetic_error (fun _ _ _ h => .ok (h, [])) none none
     (fun _ => none) (Request.mk "http://shop/p1" "document") rfl rfl⟩

/-- C6: a request whose `resource_type` is not "document" is continued
unmodified: the route action is `continue_`, the task (and its metadata
list) is untouched, no pipeline log event fires, and the outcome does not
depend on the function table, the choices config or the cache — the
classifier and the interventions are never consulted. -/
theorem c6_non_document_passthrough (F : FuncTable)
    (cfg : Option (List Choice)) (task? : Option TaskState)
    (cache : String → Option String) (req : Request)
    (h : req.resource_type ≠ "document") :
    modify_html F cfg task? cache req = (RouteAction.cont, task?, [])
  ∧ (∀ (F2 : FuncTable) (cfg2 : Option (List Choice))
       (cache2 : String → Option String),
      modify_html F2 cfg2 task? cache2 req
        = modify_html F cfg task? cache req) := by
  constructor
  · simp [modify_html, h]
  · intro F2 cfg2 cache2
    simp [modify_html, h]

/-- Witness for `c6_non_document_passthrough`: a concrete image request. -/
theorem c6_non_document_passthrough_witness :
    (Request.mk "http://shop/logo.png" "image").resource_type ≠ "document"
  ∧ (modify_html (fun _ _ _ h => .ok (h, [])) none none (fun _ => none)
        (Request.mk "http://shop/logo.png" "image")
      = (RouteAction.cont, none, [])
    ∧ (∀ (F2 : FuncTable) (cfg2 : Option (List Choice))
         (cache2 : String → Option String),
        modify_html F2 cfg2 none cache2 (Request.mk "http://shop/logo.png" "image")
          = modify_html (fun _ _ _ h => .ok (h, [])) none none (fun _ => none)
              (Request.mk "http://shop/logo.png" "image"))) :=
  ⟨by decide,
   c6_non_document_passthrough (fun _ _ _ h => .ok (h, [])) none none
     (fun _ => none) (Request.mk "http://shop/logo.png" "image") (by decide)⟩

/-- C10: for a cached document request the fulfilled response always has
status 200 and its body is all-or-nothing — either exactly the raw cached
page, or the complete output of a successful `process_html_content` run;
and whenever processing raises any error, the body is exactly the raw
cached page. -/
theorem c10_all_or_nothing_response (F : FuncTable)
    (cfg : Option (List Choice)) (task : TaskState)
    (cache : String → Option String) (req : Request) (cached : String)
    (hdoc : req.resource_type = "document")
    (hhit : cache req.url = some cached) :
    ((modify_html F cfg (some task) cache req).1
        = RouteAction.fulfill 200 cached
     ∨ ∃ body, (modify_html F cfg (some task) cache req).1
          = RouteAction.fulfill 200 body
        ∧ (process_html_content F cfg task cached req.url).1 = Except.ok body)
  ∧ (∀ e nud,
      process_html_content F cfg task cached req.url = (Except.error e, nud) →
      (modify_html F cfg (some task) cache req).1
        = RouteAction.fulfill 200 cached) := by
  constructor
  · rcases hp : process_html_content F cfg task cached req.url with ⟨res, nud⟩
    cases res with
    | ok body =>
      right
      refine ⟨body, ?_, by simp [hp]⟩
      simp [modify_html, hdoc, hhit, hp]
    | error e =>
      left
      simp [modify_html, hdoc, hhit, hp]
  · intro e nud hp
    simp [modify_html, hdoc, hhit, hp]

/-- Witness for `c10_all_or_nothing_response`: the C1 scenario, whose
processing raises `NameError` and whose route fulfills the raw cached
page. -/
theorem c10_all_or_nothing_response_witness :
    ((Request.mk "A" "document").resource_type = "document"
      ∧ c1Cache (Request.mk "A" "document").url = some "<page>")
  ∧ (((modify_html c1F (some c1Choices) (some c1Task) c1Cache
        (Request.mk "A" "document")).1 = RouteAction.fulfill 200 "<page>"
     ∨ ∃ body, (modify_html c1F (some c1Choices) (some c1Task) c1Cache
          (Request.mk "A" "document")).1 = RouteAction.fulfill 200 body
        ∧ (process_html_content c1F (some c1Choices) c1Task "<page>"
            (Request.mk "A" "document").url).1 = Except.ok body)
    ∧ (∀ e nud,
        process_html_content c1F (some c1Choices) c1Task "<page>"
            (Request.mk "A" "document").url = (Except.error e, nud) →
        (modify_html c1F (some c1Choices) (some c1Task) c1Cache
          (Request.mk "A" "document")).1 = RouteAction.fulfill 200 "<page>")) :=
  ⟨⟨rfl, rfl⟩,
   c10_all_or_nothing_response c1F (some c1Choices) c1Task c1Cache
     (Request.mk "A" "document") "<page>" rfl rfl⟩

/-- C3 counterexample: `change_stock` with `num_left` omitted takes the
inserted count from the ambient `random.randint(1, 100)` draw — two
different draws on the same page give different serialized output, so the
function is not deterministic given identical inputs when the count
argument is omitted. -/
theorem c3_change_stock_random_counterexample :
    render (change_stock 1 c3Soup none) ≠ render (change_stock 2 c3Soup none) := by
  decide

/-- C3 amended: the intervention functions are independent of the ambient
random draws exactly when the variability-injecting arguments are
explicitly supplied — with `num_left` (resp. `num_in_cart`) given, the
output tree, and hence its serialization, is byte-identical across any two
runs.  (With the argument omitted they fall back to unseeded
`random.randint`, per the counterexample.) -/
theorem c3_determinism_with_explicit_args (r1 r2 : Int) (soup : Node)
    (n nl v : Int) :
    change_stock r1 soup (some n) = change_stock r2 soup (some n)
  ∧ render (change_stock r1 soup (some n))
      = render (change_stock r2 soup (some n))
  ∧ display_num_in_cart r1 soup nl (some v)
      = display_num_in_cart r2 soup nl (some v)
  ∧ render (display_num_in_cart r1 soup nl (some v))
      = render (display_num_in_cart r2 soup nl (some v)) :=
  ⟨rfl, rfl, rfl, rfl⟩

/-- C7: `NudgeLabShopTask.process_html` checks the three page markers in
the fixed source order — product meta tag, then category sidebar filter,
then One Stop Market title — and the page type `classify` derives from the
branch taken matches that priority; when no marker matches, the input soup
is returned unrewritten.  `classify` and `shop_process_html` are pure
functions of the parsed content, so both sides of these equations are
reproducible across repeated classification of the same HTML. -/
theorem c7_classifier_priority_order (pR cR hR : Node → Node) (soup : Node)
    (p c h : Bool)
    (hp : productMarker soup = p) (hc : categoryMarker soup = c)
    (hh : homeMarker soup = h) (hok : titleStringOk soup = true) :
    classify soup
      = (if p then PageType.product else if c then PageType.category
         else if h then PageType.home else PageType.other)
  ∧ shop_process_html pR cR hR soup
      = .ok (if p then pR soup else if c then cR soup
             else if h then hR soup else soup) := by
  subst hp hc hh
  constructor
  · rfl
  · by_cases hprod : productMarker soup = true
    · simp [shop_process_html, hprod]
    · simp only [Bool.not_eq_true] at hprod
      by_cases hcat : categoryMarker soup = true
      · simp [shop_process_html, hprod, hcat]
      · simp only [Bool.not_eq_true] at hcat
        cases ht : soupTitle soup with
        | none => simp [shop_process_html, homeMarker, hprod, hcat, ht]
        | some t =>
          cases htr : nodeTruthy t with
          | false => simp [shop_process_html, homeMarker, hprod, hcat, ht, htr]
          | true =>
            cases hs : nodeString t with
            | none =>
              exfalso
              simp [titleStringOk, ht, htr, hs] at hok
            | some s =>
              cases hm : pyStrip s == "One Stop Market" with
              | true =>
                simp [shop_process_html, homeMarker, hprod, hcat, ht, htr,
                  hs, hm]
              | false =>
                simp [shop_process_html, homeMarker, hprod, hcat, ht, htr,
                  hs, hm]

/-- Witness for `c7_classifier_priority_order`: a page carrying all three
markers classifies as PRODUCT — the product marker wins. -/
theorem c7_classifier_priority_order_witness :
    (productMarker c7Soup = true ∧ categoryMarker c7Soup = true
      ∧ homeMarker c7Soup = true ∧ titleStringOk c7Soup = true)
  ∧ (classify c7Soup
      = (if true then PageType.product else if true then PageType.category
         else if true then PageType.home else PageType.other)
    ∧ shop_process_html (fun s => s) (fun s => s) (fun s => s) c7Soup
      = .ok (if true then c7Soup else if true then c7Soup
             else if true then c7Soup else c7Soup)) :=
  ⟨⟨by decide, by decide, by decide, by decide⟩,
   c7_classifier_priority_order (fun s => s) (fun s => s) (fun s => s) c7Soup
     true true true (by decide) (by decide) (by decide) (by decide)⟩

/-- C8: the `stock` intervention applied to a page with no div of the
target class raises (`element` is None and `element.insert_after` is an
`AttributeError`), and the request pipeline configured to apply it to a
cached page catches every processing exception: the route is fulfilled
with status 200 and exactly the original cached HTML, a processing warning
is logged, and no exception escapes `modify_html`. -/
theorem c8_stock_missing_element_pipeline (soup : Node)
    (value elem_id : String)
    (hmissing : (findFirst (fun n => isTag n "div" && bs4ClassMatch elem_id n)
        soup).isSome = false)
    (F : FuncTable) (task : TaskState) (cachedHtml : String) :
    stock soup value elem_id
      = Except.error (PyError.attributeError "insert_after")
  ∧ (modify_html F (some (c8Cfg value elem_id)) (some task)
       (fun u => if u == "A" then some cachedHtml else none)
       (Request.mk "A" "document")).1 = RouteAction.fulfill 200 cachedHtml
  ∧ (modify_html F (some (c8Cfg value elem_id)) (some task)
       (fun u => if u == "A" then some cachedHtml else none)
       (Request.mk "A" "document")).2.2
      = [Event.servedFromCache, Event.warnProcessingFailed] := by
  have herr : ∃ e nud,
      process_html_content F (some (c8Cfg value elem_id)) task cachedHtml "A"
        = (Except.error e, nud) := by
    unfold process_html_content
    cases hph : task.process_html cachedHtml with
    | error e => exact ⟨e, task.nudge_metadata, rfl⟩
    | ok h1 => exact ⟨PyError.nameError "choices", task.nudge_metadata, rfl⟩
  obtain ⟨e, nud, hproc⟩ := herr
  refine ⟨?_, ?_, ?_⟩
  · unfold stock
    cases hfound : findFirst (fun n => isTag n "div" && bs4ClassMatch elem_id n)
        soup with
    | none => simp [hfound]
    | some x => rw [hfound] at hmissing; simp at hmissing
  · simp [modify_html, hproc]
  · simp [modify_html, hproc]

/-- Witness for `c8_stock_missing_element_pipeline`: the spec's concrete
scenario, `stock(html, value="5 left!", elem_id="product-info-stock-sku")`
on a page lacking that element. -/
theorem c8_stock_missing_element_pipeline_witness :
    (findFirst (fun n => isTag n "div" &&
        bs4ClassMatch "product-info-stock-sku" n) c8Soup).isSome = false
  ∧ (stock c8Soup "5 left!" "product-info-stock-sku"
      = Except.error (PyError.attributeError "insert_after")
    ∧ (modify_html (fun _ _ _ h => .ok (h, []))
         (some (c8Cfg "5 left!" "product-info-stock-sku"))
         (some (initTask (fun h => .ok h)))
         (fun u => if u == "A" then some "<html><body>no stock info</body></html>" else none)
         (Request.mk "A" "document")).1
      = RouteAction.fulfill 200 "<html><body>no stock info</body></html>"
    ∧ (modify_html (fun _ _ _ h => .ok (h, []))
         (some (c8Cfg "5 left!" "product-info-stock-sku"))
         (some (initTask (fun h => .ok h)))
         (fun u => if u == "A" then some "<html><body>no stock info</body></html>" else none)
         (Request.mk "A" "document")).2.2
      = [Event.servedFromCache, Event.warnProcessingFailed]) :=
  ⟨by decide,
   c8_stock_missing_element_pipeline c8Soup "5 left!" "product-info-stock-sku"
     (by decide) (fun _ _ _ h => .ok (h, [])) (initTask (fun h => .ok h))
     "<html><body>no stock info</body></html>"⟩

/-- A character other than carriage return passes through the
universal-newline translation unchanged. -/
theorem universal_newlines_cons_of_ne (c : Char) (l : List Char)
    (h : c ≠ '\r') :
    universal_newlines (c :: l) = c :: universal_newlines l := by
  cases l with
  | nil => simp [universal_newlines, h]
  | cons d rest => simp [universal_newlines, h]

/-- Universal-newline translation is the identity on carriage-return-free
text. -/
theorem universal_newlines_of_no_cr (l : List Char)
    (h : ∀ c ∈ l, c ≠ '\r') :
    universal_newlines l = l := by
  induction l with
  | nil => rfl
  | cons c rest ih =>
    rw [universal_newlines_cons_of_ne c rest (h c (List.mem_cons_self c rest)),
      ih (fun c2 hc2 => h c2 (List.mem_cons_of_mem c hc2))]

/-- C9 counterexample: the round trip is not byte-for-byte.  Caching the
page `"a\r\nb"` and reading it back yields `"a\nb"` — the text-mode read's
universal-newline translation rewrites the carriage return. -/
theorem c9_round_trip_newline_counterexample :
    get_cached_content (cache_content [] "http://x/p" "a\r\nb") "http://x/p"
      = some "a\nb"
  ∧ get_cached_content (cache_content [] "http://x/p" "a\r\nb") "http://x/p"
      ≠ some "a\r\nb" := by
  constructor
  · rfl
  · decide

/-- C9 amended: for HTML containing no carriage return, `cache_content`
followed by `get_cached_content` returns exactly the cached text; and the
key derivation is stable — `sanitize_url` is deterministic and the serving
path (`NudgeLabBrowserEnv.sanitize_url`) and the pre-caching path
(`precache_pages.sanitize_url`) compute the same file key for every
URL. -/
theorem c9_round_trip_no_cr (fs : Fs) (url html : String)
    (hnocr : ∀ c ∈ html.data, c ≠ '\r') :
    get_cached_content (cache_content fs url html) url = some html
  ∧ (∀ u, sanitize_url u = precache_sanitize_url u) := by
  constructor
  · simp only [get_cached_content, cache_content, fsWrite, fsRead,
      List.find?]
    rw [beq_self_eq_true]
    simp [universal_newlines_of_no_cr html.data hnocr]
  · intro u
    rfl

/-- Witness for `c9_round_trip_no_cr`: a concrete carriage-return-free
page round-trips exactly. -/
theorem c9_round_trip_no_cr_witness :
    (∀ c ∈ ("<p>hi</p>" : String).data, c ≠ '\r')
  ∧ (get_cached_content (cache_content [] "http://x/q" "<p>hi</p>") "http://x/q"
      = some "<p>hi</p>"
    ∧ (∀ u, sanitize_url u = precache_sanitize_url u)) :=
  ⟨by decide,
   c9_round_trip_no_cr [] "http://x/q" "<p>hi</p>" (by decide)⟩

end ABXLab
